import Mathlib

/-!
Verification of the GitHub trending scraper (src/scraper.py) against its
specification.  The scraper is embedded shallowly:

* String primitives from Python are given directly as Lean functions
  (str.strip, str.replace).
* BeautifulSoup DOM parsing is an external collaborator: the result of
  soup.select applied to the markup is modelled as a list of row
  structures carrying the optional elements the code looks up in each
  article element; likewise the robots parser, the HTTP transport, the
  JSON encoder and the filesystem are oracles or explicit state.
* Fallible Python code becomes Except / Option; the log stream is made
  explicit as a list of (level, message) entries.
-/

/-- Log severity levels used by the logging module calls in scraper.py. -/
inductive Level where
  | info
  | warning
  | error
deriving DecidableEq, Repr

/-- One diagnostic entry: severity and message. -/
abbrev LogEntry := Level × String

/-- Configuration constant USER_AGENT from scraper.py. -/
def USER_AGENT : String :=
  "Mozilla/5.0 (compatible; AnansiScraper/1.0; +https://anansi.hackclub.com/)"

/-- Configuration constant TRENDING_URL from scraper.py. -/
def TRENDING_URL : String := "https://github.com/trending"

/-- Configuration constant MAX_RETRIES from scraper.py. -/
def MAX_RETRIES : Nat := 3

/- ### Python string primitives -/

/-- Drop the elements satisfying p from both ends of a list. -/
def dropAround (p : Char → Bool) (l : List Char) : List Char :=
  ((l.dropWhile p).reverse.dropWhile p).reverse

/-- Python str.strip(chars): remove leading and trailing characters
satisfying p. -/
def pyStripChars (p : Char → Bool) (s : String) : String :=
  String.mk (dropAround p s.toList)

/-- Python s.strip(chars) with chars a single slash, as in
name_element.get(...).strip() with argument a slash in scraper.py. -/
def stripSlashes (s : String) : String :=
  pyStripChars (fun c => c == '/') s

/-- Python str.strip() with no argument: trim surrounding whitespace. -/
def pyStrip (s : String) : String :=
  pyStripChars Char.isWhitespace s

/-- Python s.replace(comma, empty): delete every comma. -/
def removeCommas (s : String) : String :=
  String.mk (s.toList.filter (fun c => c ≠ ','))

/- ### Extractor (parse_trending) -/

/-- An anchor element: its optional href attribute, as read by
name_element.get in scraper.py (absent attribute defaults to empty). -/
structure ATag where
  href : Option String
deriving DecidableEq, Repr

/-- An h2 element: its optional first anchor descendant (repo.h2.a is
None in Python when the heading holds no link). -/
structure H2Tag where
  a : Option ATag
deriving DecidableEq, Repr

/--
One article.Box-row element as seen by the field lookups in
parse_trending.  BeautifulSoup navigation is external, so the row records
the outcome of each lookup the code performs:
* h2        — repo.h2; when the heading is absent, Python evaluates
              repo.h2.a on None and raises AttributeError;
* p         — text of repo.p, the first paragraph, if any;
* langSpan  — text of the span with itemprop programmingLanguage, if any;
* starsLink — text of the anchor whose href ends in /stargazers, if any.
-/
structure Row where
  h2 : Option H2Tag
  p : Option String
  langSpan : Option String
  starsLink : Option String
deriving DecidableEq, Repr

/-- One extracted repository record, the dict appended to repo_list. -/
structure RepoRecord where
  name : String
  description : String
  language : String
  stars : String
deriving DecidableEq, Repr

/-- The name computed from a present h2 element:
name_element.get of href with default empty, stripped of slashes when the
anchor exists, empty when it does not. -/
def rowName (h2 : H2Tag) : String :=
  match h2.a with
  | some a => stripSlashes (a.href.getD "")
  | none => ""

/--
The body of the per-row try block in parse_trending.  Except models the
exception that escapes when repo.h2 is None (attribute access on None);
Option models the name guard: ok none is a row whose name resolved empty
and which is therefore not appended.
-/
def parseRow (repo : Row) : Except String (Option RepoRecord) :=
  match repo.h2 with
  | none => Except.error "AttributeError: NoneType has no attribute a"
  | some h2 =>
    let name := rowName h2
    let desc := match repo.p with
      | some t => pyStrip t
      | none => ""
    let lang := match repo.langSpan with
      | some t => pyStrip t
      | none => ""
    let stars := match repo.starsLink with
      | some t => removeCommas (pyStrip t)
      | none => "0"
    if name ≠ "" then
      Except.ok (some { name := name, description := desc,
                        language := lang, stars := stars })
    else
      Except.ok none

/--
parse_trending from scraper.py over the rows selected from the markup:
each row is processed by parseRow; a raised exception is caught, logged
and the row skipped (continue); a row whose name is empty is not
appended; all other rows contribute their record in document order.
-/
def parse_trending (rows : List Row) : List RepoRecord :=
  rows.filterMap (fun r =>
    match parseRow r with
    | Except.ok o => o
    | Except.error _ => none)

/- ### Fetcher (fetch_trending) -/

/-- Outcome of one HTTP request as reported by the transport: either a
response with a status code and body text, or a connection-level
failure. -/
inductive Outcome where
  | response (status : Nat) (body : String)
  | connError
deriving DecidableEq, Repr

/-- The status_forcelist from the Retry configuration in fetch_trending:
statuses 429, 500, 502, 503 and 504 are retried. -/
def retryableStatus (s : Nat) : Bool :=
  s == 429 || s == 500 || s == 502 || s == 503 || s == 504

/--
The retry loop the urllib3 Retry adapter performs for the configuration
built in fetch_trending (total MAX_RETRIES retries after the initial
request, forcelist as above, retries also on connection failures),
followed by response.raise_for_status (raises on status 400..599) and
response.text on success.  The transport is an oracle giving the outcome
of the i-th request; the second component of the result counts the
requests actually performed.  Every raised requests.RequestException is
an Except.error.
-/
def fetchLoop (transport : Nat → Outcome) :
    Nat → Nat → Except String String × Nat
  | 0, i =>
    match transport i with
    | Outcome.connError =>
      (Except.error "ConnectionError: max retries exceeded", i + 1)
    | Outcome.response s body =>
      if retryableStatus s then
        (Except.error "RetryError: too many error responses", i + 1)
      else if 400 ≤ s ∧ s < 600 then
        (Except.error "HTTPError", i + 1)
      else
        (Except.ok body, i + 1)
  | r + 1, i =>
    match transport i with
    | Outcome.connError => fetchLoop transport r (i + 1)
    | Outcome.response s body =>
      if retryableStatus s then
        fetchLoop transport r (i + 1)
      else if 400 ≤ s ∧ s < 600 then
        (Except.error "HTTPError", i + 1)
      else
        (Except.ok body, i + 1)

/-- fetch_trending from scraper.py: run the session.get with the Retry
adapter mounted (MAX_RETRIES retries) and raise_for_status. -/
def fetch_trending (transport : Nat → Outcome) : Except String String × Nat :=
  fetchLoop transport MAX_RETRIES 0

/- ### Policy checker (can_fetch) -/

/-- The robots.txt read performed by robotparser, an external
collaborator: either the parsed rule set (an oracle deciding user agent
and url) or the exception raised while retrieving or parsing it. -/
inductive RobotsResult where
  | rules (allowed : String → String → Bool)
  | unavailable (cause : String)

/-- can_fetch from scraper.py: evaluate the robots rules for the user
agent and url; on any exception, log a warning and default to allowing.
Returns the decision together with the diagnostics it emits. -/
def can_fetch (robots : RobotsResult) (url : String) (user_agent : String) :
    Bool × List LogEntry :=
  match robots with
  | RobotsResult.rules allowed => (allowed user_agent url, [])
  | RobotsResult.unavailable e =>
    (true, [(Level.warning, "Could not check robots.txt: " ++ e)])

/- ### Snapshot store (save_data) -/

/-- The filesystem as the snapshot store sees it: an association list
from path to file content, most recent write first. -/
abbrev FS := List (String × String)

/-- os.path.exists plus reading back: the content stored at a path. -/
def FS.lookup (fs : FS) (path : String) : Option String :=
  match fs with
  | [] => none
  | (q, c) :: rest => if q = path then some c else FS.lookup rest path

/-- Writing a file: record the new content for the path. -/
def FS.insert (fs : FS) (path content : String) : FS :=
  (path, content) :: fs

/-- The artifact path data/DATE/trending.json built in save_data. -/
def savePath (today : String) : String :=
  "data/" ++ today ++ "/trending.json"

/-- JSON string literal for a field value (json.dump is external; the
record fields in this model need no escaping). -/
def jsonString (s : String) : String := "\"" ++ s ++ "\""

/-- The json.dump rendering of one record with indent 2. -/
def serializeRecord (r : RepoRecord) : String :=
  "\x7b\n    \"name\": " ++ jsonString r.name ++
  ",\n    \"description\": " ++ jsonString r.description ++
  ",\n    \"language\": " ++ jsonString r.language ++
  ",\n    \"stars\": " ++ jsonString r.stars ++ "\n  \x7d"

/-- The json.dump rendering of the record list with indent 2. -/
def serialize (data : List RepoRecord) : String :=
  "[\n  " ++ String.intercalate ",\n  " (data.map serializeRecord) ++ "\n]"

/--
How the write attempt inside the try block of save_data turns out.
open with mode w creates (or truncates) the file before json.dump
serializes anything, so a failure during dump leaves the created file
holding whatever prefix was flushed; a failure of open itself leaves the
filesystem untouched.
-/
inductive WriteOutcome where
  | success
  | openFail (cause : String)
  | dumpFail (written : String) (cause : String)
deriving DecidableEq, Repr

/--
save_data from scraper.py: if the artifact for the date already exists,
log and return false without writing; otherwise attempt the write, and
on any exception log the cause at error level and return false.  The
current UTC date is a parameter (datetime.now is external); directory
creation is a thin wrapper and not modelled.  Returns the new
filesystem, the boolean result, and the diagnostics emitted.
-/
def save_data (fs : FS) (today : String) (data : List RepoRecord)
    (w : WriteOutcome) : FS × Bool × List LogEntry :=
  let path := savePath today
  match FS.lookup fs path with
  | some _ =>
    (fs, false,
      [(Level.info, "File " ++ path ++ " already exists. Skipping save.")])
  | none =>
    match w with
    | WriteOutcome.success =>
      (FS.insert fs path (serialize data), true,
        [(Level.info, "Successfully saved " ++ toString data.length ++
          " repositories to " ++ path)])
    | WriteOutcome.openFail cause =>
      (fs, false,
        [(Level.error, "Error saving data to " ++ path ++ ": " ++ cause)])
    | WriteOutcome.dumpFail written cause =>
      (FS.insert fs path written, false,
        [(Level.error, "Error saving data to " ++ path ++ ": " ++ cause)])

/- ### Orchestrator (main) -/

/--
The external world one run of main interacts with: the robots.txt read,
the HTTP transport, the BeautifulSoup parse of the fetched markup into
row elements (an Except, since a library failure there is the kind of
condition the outer except-Exception arm of main catches), the current
UTC date, the outcome of the snapshot write attempt, and the initial
filesystem.
-/
structure Env where
  robots : RobotsResult
  transport : Nat → Outcome
  dom : String → Except String (List Row)
  today : String
  writeOutcome : WriteOutcome
  fs : FS

/-- What one run of main produced: the final filesystem, the diagnostic
stream, and how many HTTP requests the fetcher performed. -/
structure RunResult where
  fs : FS
  events : List LogEntry
  fetchAttempts : Nat
deriving Repr

/--
main from scraper.py.  The body is the try/except/finally: the robots
check gates the fetch; a failed fetch is caught as a network error; an
empty parse halts before persistence; the finally arm always appends the
finished diagnostic.  Informational messages inside fetch_trending and
parse_trending are omitted from the stream; the messages main itself
emits are kept.
-/
def scraperMain (env : Env) : RunResult :=
  let start := [(Level.info, "Starting GitHub trending scraper")]
  let (allowed, robotEvts) := can_fetch env.robots TRENDING_URL USER_AGENT
  let body : FS × List LogEntry × Nat :=
    if allowed then
      let passed := [(Level.info, "Robots.txt check passed")]
      let (fetched, n) := fetch_trending env.transport
      match fetched with
      | Except.error e =>
        (env.fs, passed ++ [(Level.error, "Network error: " ++ e)], n)
      | Except.ok html =>
        match env.dom html with
        | Except.error e =>
          (env.fs, passed ++ [(Level.error, "Unexpected error: " ++ e)], n)
        | Except.ok rows =>
          let repos := parse_trending rows
          if repos.isEmpty then
            (env.fs,
              passed ++
                [(Level.warning, "No repositories found on trending page")],
              n)
          else
            let (fs1, saved, saveEvts) :=
              save_data env.fs env.today repos env.writeOutcome
            if saved then
              (fs1,
                passed ++ saveEvts ++
                  [(Level.info,
                    "Scraping completed successfully. Found " ++
                      toString repos.length ++ " repositories.")],
                n)
            else
              (fs1,
                passed ++ saveEvts ++
                  [(Level.info, "Data already exists for today.")],
                n)
    else
      (env.fs, [(Level.warning, "Scraping not allowed by robots.txt")], 0)
  { fs := body.1,
    events := start ++ robotEvts ++ body.2.1 ++
      [(Level.info, "Scraper finished")],
    fetchAttempts := body.2.2 }

/- ### Helper lemmas -/

/-- A record can only come out of parseRow with a non-empty name: the
append is guarded by the name check. -/
theorem parseRow_ok_name {r : Row} {rec : RepoRecord}
    (h : parseRow r = Except.ok (some rec)) : rec.name ≠ "" := by
  unfold parseRow at h
  cases hh2 : r.h2 with
  | none => rw [hh2] at h; cases h
  | some h2 =>
    rw [hh2] at h
    simp only at h
    split at h
    · next hne =>
      simp only [Except.ok.injEq, Option.some.injEq] at h
      subst h
      exact hne
    · cases h

/-- The last element of a list ending in a singleton. -/
theorem getLast?_append_singleton {α : Type} (l : List α) (a : α) :
    (l ++ [a]).getLast? = some a := by
  rw [List.getLast?_append_cons]
  rfl

/- ### Claim theorems: extractor -/

/-- C1: every record returned by parse_trending has a non-empty name,
rows whose name does not resolve to a non-empty value are absent, and
the number of output records is at most the number of row elements. -/
theorem parse_trending_names_nonempty (rows : List Row) :
    (∀ rec ∈ parse_trending rows, rec.name ≠ "") ∧
    (parse_trending rows).length ≤ rows.length := by
  constructor
  · intro rec hmem
    rw [parse_trending, List.mem_filterMap] at hmem
    obtain ⟨r, _hr, hfr⟩ := hmem
    cases hh : parseRow r with
    | error e => rw [hh] at hfr; cases hfr
    | ok o =>
      rw [hh] at hfr
      simp only at hfr
      subst hfr
      exact parseRow_ok_name hh
  · exact List.length_filterMap_le _ _

/-- Witness for C1 at a concrete one-row input. -/
theorem parse_trending_names_nonempty_witness :
    ({ name := "torvalds/linux", description := "", language := "",
       stars := "0" } : RepoRecord).name ≠ "" :=
  (parse_trending_names_nonempty
    [{ h2 := some ⟨some ⟨some "/torvalds/linux"⟩⟩, p := none,
       langSpan := none, starsLink := none }]).1 _ (by decide)

/-- C3: for a row whose name resolves, each optional field degrades
independently to its default instead of dropping the row: missing
description gives an empty string, missing language gives an empty
string, missing stargazers link gives "0", and commas are stripped from
the stars text, "160,000" becoming "160000". -/
theorem parseRow_field_defaults (r : Row) (h2 : H2Tag)
    (hh2 : r.h2 = some h2) (hname : rowName h2 ≠ "") :
    ∃ rec, parseRow r = Except.ok (some rec) ∧ rec.name = rowName h2 ∧
      (r.p = none → rec.description = "") ∧
      (r.langSpan = none → rec.language = "") ∧
      (r.starsLink = none → rec.stars = "0") ∧
      (r.starsLink = some "160,000" → rec.stars = "160000") := by
  refine ⟨{ name := rowName h2,
            description := match r.p with
              | some t => pyStrip t
              | none => "",
            language := match r.langSpan with
              | some t => pyStrip t
              | none => "",
            stars := match r.starsLink with
              | some t => removeCommas (pyStrip t)
              | none => "0" }, ?_, rfl, ?_, ?_, ?_, ?_⟩
  · unfold parseRow
    rw [hh2]
    simp only [if_pos hname]
  · intro hp; rw [hp]
  · intro hl; rw [hl]
  · intro hs; rw [hs]
  · intro hs
    rw [hs]
    show removeCommas (pyStrip "160,000") = "160000"
    decide

/-- Witness for C3 at a concrete row missing description and language
and carrying stars text with a thousands separator. -/
theorem parseRow_field_defaults_witness :
    ∃ rec,
      parseRow { h2 := some ⟨some ⟨some "/torvalds/linux"⟩⟩, p := none,
                 langSpan := none, starsLink := some "160,000" } =
        Except.ok (some rec) ∧
      rec.name = rowName ⟨some ⟨some "/torvalds/linux"⟩⟩ ∧
      ((none : Option String) = none → rec.description = "") ∧
      ((none : Option String) = none → rec.language = "") ∧
      ((some "160,000" : Option String) = none → rec.stars = "0") ∧
      ((some "160,000" : Option String) = some "160,000" →
        rec.stars = "160000") :=
  parseRow_field_defaults _ _ rfl (by decide)

/-- C4: parse_trending is a total function; an input with no row
elements yields the empty list, and a row on which processing raises is
skipped while the rows before and after it are still processed. -/
theorem parse_trending_total_and_skips :
    parse_trending [] = [] ∧
    ∀ (pre post : List Row) (r : Row) (e : String),
      parseRow r = Except.error e →
      parse_trending (pre ++ r :: post) =
        parse_trending pre ++ parse_trending post := by
  constructor
  · rfl
  · intro pre post r e he
    unfold parse_trending
    rw [List.filterMap_append, List.filterMap_cons, he]

/-- Witness for C4 at a concrete erroring row (missing h2 heading)
between two singleton batches. -/
theorem parse_trending_total_and_skips_witness :
    parse_trending
      ([{ h2 := some ⟨some ⟨some "/a/b"⟩⟩, p := none, langSpan := none,
          starsLink := none }] ++
        ({ h2 := none, p := none, langSpan := none, starsLink := none } : Row)
          :: [{ h2 := some ⟨some ⟨some "/c/d"⟩⟩, p := none, langSpan := none,
                starsLink := none }]) =
      parse_trending
        [{ h2 := some ⟨some ⟨some "/a/b"⟩⟩, p := none, langSpan := none,
           starsLink := none }] ++
      parse_trending
        [{ h2 := some ⟨some ⟨some "/c/d"⟩⟩, p := none, langSpan := none,
           starsLink := none }] :=
  parse_trending_total_and_skips.2 _ _ _
    "AttributeError: NoneType has no attribute a" rfl

/-- C9: parse_trending preserves document order; on the three-row
scenario (two fully populated rows, one missing its language tag) it
returns exactly three records in order, the third with empty language
and comma-stripped stars, and in general it maps concatenation of rows
to concatenation of outputs. -/
theorem parse_trending_preserves_order :
    parse_trending
      [{ h2 := some ⟨some ⟨some "/torvalds/linux"⟩⟩,
         p := some "Linux kernel source tree",
         langSpan := some "C", starsLink := some "160,000" },
       { h2 := some ⟨some ⟨some "/microsoft/vscode"⟩⟩,
         p := some "Visual Studio Code",
         langSpan := some "TypeScript", starsLink := some "120,000" },
       { h2 := some ⟨some ⟨some "/example/no-language"⟩⟩,
         p := some "Repository with no language specified",
         langSpan := none, starsLink := some "1,234" }] =
      [{ name := "torvalds/linux", description := "Linux kernel source tree",
         language := "C", stars := "160000" },
       { name := "microsoft/vscode", description := "Visual Studio Code",
         language := "TypeScript", stars := "120000" },
       { name := "example/no-language",
         description := "Repository with no language specified",
         language := "", stars := "1234" }] ∧
    ∀ (l1 l2 : List Row),
      parse_trending (l1 ++ l2) = parse_trending l1 ++ parse_trending l2 := by
  constructor
  · decide
  · intro l1 l2
    unfold parse_trending
    exact List.filterMap_append l1 l2 _

/-- Every terminating branch of the retry loop has performed at least
one request beyond the starting index. -/
theorem fetchLoop_attempts_ge (t : Nat → Outcome) :
    ∀ rl i, i + 1 ≤ (fetchLoop t rl i).2 := by
  intro rl
  induction rl with
  | zero =>
    intro i
    simp only [fetchLoop]
    cases ht : t i with
    | connError => simp
    | response s b =>
      dsimp only
      by_cases hr : retryableStatus s
      · rw [if_pos hr]
      · rw [if_neg hr]
        by_cases h46 : 400 ≤ s ∧ s < 600
        · rw [if_pos h46]
        · rw [if_neg h46]
  | succ r ih =>
    intro i
    simp only [fetchLoop]
    cases ht : t i with
    | connError => exact le_trans (by omega) (ih (i + 1))
    | response s b =>
      dsimp only
      by_cases hr : retryableStatus s
      · rw [if_pos hr]
        exact le_trans (by omega) (ih (i + 1))
      · rw [if_neg hr]
        by_cases h46 : 400 ≤ s ∧ s < 600
        · rw [if_pos h46]
        · rw [if_neg h46]

/-- The retry loop performs at most one request beyond the starting
index plus the retries it is still allowed. -/
theorem fetchLoop_attempts_le (t : Nat → Outcome) :
    ∀ rl i, (fetchLoop t rl i).2 ≤ i + rl + 1 := by
  intro rl
  induction rl with
  | zero =>
    intro i
    simp only [fetchLoop]
    cases ht : t i with
    | connError => simp
    | response s b =>
      dsimp only
      by_cases hr : retryableStatus s
      · rw [if_pos hr]
      · rw [if_neg hr]
        by_cases h46 : 400 ≤ s ∧ s < 600
        · rw [if_pos h46]
        · rw [if_neg h46]
  | succ r ih =>
    intro i
    simp only [fetchLoop]
    cases ht : t i with
    | connError => exact le_trans (ih (i + 1)) (by omega)
    | response s b =>
      dsimp only
      by_cases hr : retryableStatus s
      · rw [if_pos hr]
        exact le_trans (ih (i + 1)) (by omega)
      · rw [if_neg hr]
        by_cases h46 : 400 ≤ s ∧ s < 600
        · rw [if_pos h46]
          omega
        · rw [if_neg h46]
          omega

/-- A status between 200 and 399 is not in the retry forcelist. -/
theorem retryableStatus_false_of_lt {s : Nat} (h : s < 400) :
    retryableStatus s = false := by
  simp only [retryableStatus, Bool.or_eq_false_iff, beq_eq_false_iff_ne,
    ne_eq]
  omega

/-- If the next request gets a response whose status is not in the
forcelist, the loop stops with that response regardless of the retries
still allowed. -/
theorem fetchLoop_first_response (t : Nat → Outcome) (rl i s : Nat)
    (b : String) (ht : t i = Outcome.response s b)
    (hr : retryableStatus s = false) :
    fetchLoop t rl i =
      if 400 ≤ s ∧ s < 600 then (Except.error "HTTPError", i + 1)
      else (Except.ok b, i + 1) := by
  cases rl with
  | zero =>
    simp only [fetchLoop]
    rw [ht]
    dsimp only
    rw [hr]
    simp
  | succ r =>
    simp only [fetchLoop]
    rw [ht]
    dsimp only
    rw [hr]
    simp

/-- If the next request gets a forcelist status and retries remain, the
loop retries. -/
theorem fetchLoop_first_retry (t : Nat → Outcome) (r i s : Nat)
    (b : String) (ht : t i = Outcome.response s b)
    (hr : retryableStatus s = true) :
    fetchLoop t (r + 1) i = fetchLoop t r (i + 1) := by
  simp only [fetchLoop]
  rw [ht]
  dsimp only
  rw [if_pos hr]

/-- If the next request fails at the connection level and retries
remain, the loop retries. -/
theorem fetchLoop_first_conn (t : Nat → Outcome) (r i : Nat)
    (ht : t i = Outcome.connError) :
    fetchLoop t (r + 1) i = fetchLoop t r (i + 1) := by
  simp only [fetchLoop]
  rw [ht]

/- ### Claim theorems: fetcher -/

/-- C5 counterexample: a transport answering 500 to the first three
requests and 200 to the fourth makes the fetcher succeed on its fourth
request, so the fetcher performs more than MAX_RETRIES = 3 attempts:
the configured value bounds the retries after the initial request, not
the total number of attempts. -/
theorem fetch_four_attempts_counterexample :
    fetch_trending
      (fun i => if i < 3 then Outcome.response 500 "server error"
        else Outcome.response 200 "ok") = (Except.ok "ok", 4) ∧
    MAX_RETRIES < 4 := by
  constructor
  · rfl
  · decide

/-- C5 amended: the fetcher performs at most MAX_RETRIES + 1 = 4
requests; it retries on forcelist statuses (429, 500, 502, 503, 504)
and connection failures; any other 4xx or 5xx status terminates
immediately with a network error on the first attempt; a 2xx response
returns the body text immediately on the first attempt. -/
theorem fetch_retry_policy (t : Nat → Outcome) :
    (fetch_trending t).2 ≤ MAX_RETRIES + 1 ∧
    (∀ s b, t 0 = Outcome.response s b → 200 ≤ s → s < 300 →
      fetch_trending t = (Except.ok b, 1)) ∧
    (∀ s b, t 0 = Outcome.response s b → retryableStatus s = false →
      400 ≤ s → s < 600 →
      fetch_trending t = (Except.error "HTTPError", 1)) ∧
    (∀ s b, t 0 = Outcome.response s b → retryableStatus s = true →
      2 ≤ (fetch_trending t).2) ∧
    (t 0 = Outcome.connError → 2 ≤ (fetch_trending t).2) := by
  refine ⟨?_, ?_, ?_, ?_, ?_⟩
  · have h := fetchLoop_attempts_le t MAX_RETRIES 0
    simpa [fetch_trending] using h
  · intro s b h0 h200 h300
    have hr : retryableStatus s = false :=
      retryableStatus_false_of_lt (by omega)
    show fetchLoop t MAX_RETRIES 0 = _
    rw [fetchLoop_first_response t MAX_RETRIES 0 s b h0 hr,
      if_neg (by omega)]
  · intro s b h0 hr h400 h600
    show fetchLoop t MAX_RETRIES 0 = _
    rw [fetchLoop_first_response t MAX_RETRIES 0 s b h0 hr,
      if_pos (by omega)]
  · intro s b h0 hr
    show 2 ≤ (fetchLoop t (2 + 1) 0).2
    rw [fetchLoop_first_retry t 2 0 s b h0 hr]
    exact fetchLoop_attempts_ge t 2 1
  · intro h0
    show 2 ≤ (fetchLoop t (2 + 1) 0).2
    rw [fetchLoop_first_conn t 2 0 h0]
    exact fetchLoop_attempts_ge t 2 1

/-- Witness for C5 (amended) at a transport that answers 200 at once. -/
theorem fetch_retry_policy_witness :
    fetch_trending (fun _ => Outcome.response 200 "body") =
      (Except.ok "body", 1) :=
  (fetch_retry_policy _).2.1 200 "body" rfl (by decide) (by decide)

/- ### Claim theorems: policy checker -/

/-- C7: when the robots rules cannot be retrieved or parsed, can_fetch
fails open: it returns true for every url and user agent and emits a
warning-level diagnostic naming the cause, instead of raising or
denying. -/
theorem can_fetch_fails_open (e url ua : String) :
    can_fetch (RobotsResult.unavailable e) url ua =
      (true, [(Level.warning, "Could not check robots.txt: " ++ e)]) :=
  rfl

/- ### Claim theorems: snapshot store -/

/-- C2: with no artifact present for the date, a first successful
save_data call writes the serialized records once and returns true; a
second call on the same date, with the same or different data and any
write outcome, sees the existing artifact, leaves the filesystem
unchanged and returns false. -/
theorem save_data_write_once (fs : FS) (today : String)
    (d1 d2 : List RepoRecord) (w2 : WriteOutcome)
    (hnew : FS.lookup fs (savePath today) = none) :
    (save_data fs today d1 WriteOutcome.success).2.1 = true ∧
    FS.lookup (save_data fs today d1 WriteOutcome.success).1
      (savePath today) = some (serialize d1) ∧
    (save_data (save_data fs today d1 WriteOutcome.success).1
      today d2 w2).1 =
      (save_data fs today d1 WriteOutcome.success).1 ∧
    (save_data (save_data fs today d1 WriteOutcome.success).1
      today d2 w2).2.1 = false := by
  have h1 : save_data fs today d1 WriteOutcome.success =
      (FS.insert fs (savePath today) (serialize d1), true,
        [(Level.info, "Successfully saved " ++ toString d1.length ++
          " repositories to " ++ savePath today)]) := by
    unfold save_data
    dsimp only
    rw [hnew]
  have hlook : FS.lookup (FS.insert fs (savePath today) (serialize d1))
      (savePath today) = some (serialize d1) := by
    unfold FS.insert FS.lookup
    rw [if_pos rfl]
  have h2 : save_data (FS.insert fs (savePath today) (serialize d1))
      today d2 w2 =
      (FS.insert fs (savePath today) (serialize d1), false,
        [(Level.info, "File " ++ savePath today ++
          " already exists. Skipping save.")]) := by
    unfold save_data
    dsimp only
    rw [hlook]
  rw [h1]
  refine ⟨rfl, hlook, ?_, ?_⟩
  · rw [h2]
  · rw [h2]

/-- Witness for C2 on an empty filesystem and two distinct payloads. -/
theorem save_data_write_once_witness :
    (save_data [] "2026-10-12" [] WriteOutcome.success).2.1 = true ∧
    FS.lookup (save_data [] "2026-10-12" [] WriteOutcome.success).1
      (savePath "2026-10-12") = some (serialize []) ∧
    (save_data (save_data [] "2026-10-12" [] WriteOutcome.success).1
      "2026-10-12"
      [{ name := "a/b", description := "", language := "", stars := "0" }]
      WriteOutcome.success).1 =
      (save_data [] "2026-10-12" [] WriteOutcome.success).1 ∧
    (save_data (save_data [] "2026-10-12" [] WriteOutcome.success).1
      "2026-10-12"
      [{ name := "a/b", description := "", language := "", stars := "0" }]
      WriteOutcome.success).2.1 = false :=
  save_data_write_once [] "2026-10-12" []
    [{ name := "a/b", description := "", language := "", stars := "0" }]
    WriteOutcome.success rfl

/-- C6: an I/O failure during the snapshot write is caught by
save_data: whether the open itself fails or the dump fails after the
file was created, the call returns false to the caller and logs one
error-level diagnostic carrying the underlying cause, instead of
propagating the exception. -/
theorem save_data_failure_reported (fs : FS) (today : String)
    (data : List RepoRecord) (written cause : String)
    (hnew : FS.lookup fs (savePath today) = none) :
    save_data fs today data (WriteOutcome.dumpFail written cause) =
      (FS.insert fs (savePath today) written, false,
        [(Level.error,
          "Error saving data to " ++ savePath today ++ ": " ++ cause)]) ∧
    save_data fs today data (WriteOutcome.openFail cause) =
      (fs, false,
        [(Level.error,
          "Error saving data to " ++ savePath today ++ ": " ++ cause)]) := by
  constructor <;>
    · unfold save_data
      dsimp only
      rw [hnew]

/-- Witness for C6 on an empty filesystem and a concrete cause. -/
theorem save_data_failure_reported_witness :
    save_data [] "2026-10-12" []
        (WriteOutcome.dumpFail "" "No space left on device") =
      (FS.insert [] (savePath "2026-10-12") "", false,
        [(Level.error,
          "Error saving data to " ++ savePath "2026-10-12" ++ ": " ++
            "No space left on device")]) ∧
    save_data [] "2026-10-12" []
        (WriteOutcome.openFail "No space left on device") =
      ([], false,
        [(Level.error,
          "Error saving data to " ++ savePath "2026-10-12" ++ ": " ++
            "No space left on device")]) :=
  save_data_failure_reported [] "2026-10-12" [] "" "No space left on device"
    rfl

/-- C10: save_data is not atomic on write failure: open with mode w
creates the artifact before the records are serialized, so a failure
during the dump leaves an empty or partly written artifact on disk for
the date while returning false, and every later save_data call for the
same date sees the file, changes nothing and returns false, so the
snapshot for that date is never completed or repaired. -/
theorem save_data_not_atomic (fs : FS) (today : String)
    (data d2 : List RepoRecord) (written cause : String) (w2 : WriteOutcome)
    (hnew : FS.lookup fs (savePath today) = none) :
    (save_data fs today data (WriteOutcome.dumpFail written cause)).2.1 =
      false ∧
    FS.lookup (save_data fs today data
      (WriteOutcome.dumpFail written cause)).1 (savePath today) =
      some written ∧
    (save_data (save_data fs today data
      (WriteOutcome.dumpFail written cause)).1 today d2 w2).1 =
      (save_data fs today data (WriteOutcome.dumpFail written cause)).1 ∧
    (save_data (save_data fs today data
      (WriteOutcome.dumpFail written cause)).1 today d2 w2).2.1 =
      false := by
  have h1 : save_data fs today data (WriteOutcome.dumpFail written cause) =
      (FS.insert fs (savePath today) written, false,
        [(Level.error,
          "Error saving data to " ++ savePath today ++ ": " ++ cause)]) := by
    unfold save_data
    dsimp only
    rw [hnew]
  have hlook : FS.lookup (FS.insert fs (savePath today) written)
      (savePath today) = some written := by
    unfold FS.insert FS.lookup
    rw [if_pos rfl]
  have h2 : save_data (FS.insert fs (savePath today) written) today d2 w2 =
      (FS.insert fs (savePath today) written, false,
        [(Level.info, "File " ++ savePath today ++
          " already exists. Skipping save.")]) := by
    unfold save_data
    dsimp only
    rw [hlook]
  rw [h1]
  refine ⟨rfl, hlook, ?_, ?_⟩
  · rw [h2]
  · rw [h2]

/-- Witness for C10: a dump failure leaving an empty artifact, then a
later successful-looking call that is skipped. -/
theorem save_data_not_atomic_witness :
    (save_data [] "2026-10-12"
      [{ name := "a/b", description := "", language := "", stars := "0" }]
      (WriteOutcome.dumpFail "" "Input/output error")).2.1 = false ∧
    FS.lookup (save_data [] "2026-10-12"
      [{ name := "a/b", description := "", language := "", stars := "0" }]
      (WriteOutcome.dumpFail "" "Input/output error")).1
      (savePath "2026-10-12") = some "" ∧
    (save_data (save_data [] "2026-10-12"
      [{ name := "a/b", description := "", language := "", stars := "0" }]
      (WriteOutcome.dumpFail "" "Input/output error")).1 "2026-10-12"
      [{ name := "a/b", description := "", language := "", stars := "0" }]
      WriteOutcome.success).1 =
      (save_data [] "2026-10-12"
        [{ name := "a/b", description := "", language := "", stars := "0" }]
        (WriteOutcome.dumpFail "" "Input/output error")).1 ∧
    (save_data (save_data [] "2026-10-12"
      [{ name := "a/b", description := "", language := "", stars := "0" }]
      (WriteOutcome.dumpFail "" "Input/output error")).1 "2026-10-12"
      [{ name := "a/b", description := "", language := "", stars := "0" }]
      WriteOutcome.success).2.1 = false :=
  save_data_not_atomic [] "2026-10-12"
    [{ name := "a/b", description := "", language := "", stars := "0" }]
    [{ name := "a/b", description := "", language := "", stars := "0" }]
    "" "Input/output error" WriteOutcome.success rfl

/- ### Claim theorems: orchestrator -/

/-- C8: a denied policy check halts the run before any HTTP request is
made and before any artifact is written, and on every terminal path the
run ends with the finished diagnostic; the orchestrator is a total
function, so no path raises. -/
theorem scraperMain_denial_and_finished (env : Env) :
    ((can_fetch env.robots TRENDING_URL USER_AGENT).1 = false →
      (scraperMain env).fetchAttempts = 0 ∧ (scraperMain env).fs = env.fs) ∧
    (scraperMain env).events.getLast? =
      some (Level.info, "Scraper finished") := by
  cases hc : can_fetch env.robots TRENDING_URL USER_AGENT with
  | mk allowed evts =>
    constructor
    · intro hfalse
      have ha : allowed = false := hfalse
      subst ha
      constructor <;> simp [scraperMain, hc]
    · simp only [scraperMain, hc]
      exact getLast?_append_singleton _ _

/-- Witness for C8 at an environment whose robots rules deny every
request. -/
theorem scraperMain_denial_and_finished_witness :
    (scraperMain { robots := RobotsResult.rules (fun _ _ => false),
                   transport := fun _ => Outcome.connError,
                   dom := fun _ => Except.ok [],
                   today := "2026-10-12",
                   writeOutcome := WriteOutcome.success,
                   fs := [] }).fetchAttempts = 0 ∧
    (scraperMain { robots := RobotsResult.rules (fun _ _ => false),
                   transport := fun _ => Outcome.connError,
                   dom := fun _ => Except.ok [],
                   today := "2026-10-12",
                   writeOutcome := WriteOutcome.success,
                   fs := [] }).fs = [] :=
  (scraperMain_denial_and_finished _).1 rfl
